import Mathlib

/-!
Verification of the kelsier GPU resource / frame-synchronization engine.

The Rust sources under `src/vulkan` are shallowly embedded here:

* `Device.are_properties_supported` (src/vulkan/device.rs) becomes
  `Kelsier.findMemoryType` / `Kelsier.arePropertiesSupported`: memory types
  are a list of property-flag bitmasks (natural numbers), and the selection
  walks the enumerated list exactly as the Rust iterator chain does.
* `TransitionBarrier.from_layout` and `ImageData.transition_image_layout`
  (src/vulkan/image.rs) become functions over an `ImageLayout` enumeration,
  returning `Except` like the Rust `Result`.
* The staged transfer path (`BufferInfo.create_gpu_local_buffer`,
  `CommandBuffer.record_and_submit_single_command` in src/vulkan/buffers.rs)
  is embedded as a trace of device operations (`BufOp`), one event per
  Vulkan call the Rust code performs on its happy path.
* Descriptor / uniform-buffer setup (`BufferDetails.new`) and the recorded
  per-image command buffers (`create_command_buffers`) are embedded as
  functions from the swapchain image list to the created resources.
* `Objects.draw_next_frame` (src/vulkan/sync.rs) becomes `drawNextFrame`, a
  state-transition function over `Objects`/`FrameState`, parameterized by a
  `TickEnv` supplying the outcomes of the fallible device calls of one tick
  (acquire result, present result, wait/submit success) and emitting the
  trace of synchronization events the call performs.
* The uniform snapshot update (`UniformBuffer.update` in src/app.rs) is
  embedded over real 4x4 matrices, with cgmath's `from_axis_angle` about the
  z axis written out with `Real.cos`/`Real.sin`.
-/

namespace Kelsier

/-! ## Vulkan flag constants (numeric values from the Vulkan headers) -/

/-- `vk::BufferUsageFlags::TRANSFER_SRC` -/
def BUFFER_USAGE_TRANSFER_SRC : ℕ := 0x1
/-- `vk::BufferUsageFlags::TRANSFER_DST` -/
def BUFFER_USAGE_TRANSFER_DST : ℕ := 0x2
/-- `vk::BufferUsageFlags::UNIFORM_BUFFER` -/
def BUFFER_USAGE_UNIFORM_BUFFER : ℕ := 0x10
/-- `vk::BufferUsageFlags::INDEX_BUFFER` -/
def BUFFER_USAGE_INDEX_BUFFER : ℕ := 0x40
/-- `vk::BufferUsageFlags::VERTEX_BUFFER` -/
def BUFFER_USAGE_VERTEX_BUFFER : ℕ := 0x80

/-- `vk::MemoryPropertyFlags::DEVICE_LOCAL` -/
def MEMORY_PROPERTY_DEVICE_LOCAL : ℕ := 0x1
/-- `vk::MemoryPropertyFlags::HOST_VISIBLE` -/
def MEMORY_PROPERTY_HOST_VISIBLE : ℕ := 0x2
/-- `vk::MemoryPropertyFlags::HOST_COHERENT` -/
def MEMORY_PROPERTY_HOST_COHERENT : ℕ := 0x4

/-! ## Memory allocator: `Device::are_properties_supported` (device.rs 197-212)

The device's memory-type table is the list of `property_flags` bitmasks of
`memory_properties.memory_types`, in index order.  The Rust code is

    self.memory_properties.memory_types.iter().enumerate()
        .find(|(i, memory_type)| (type_filter & (1u32 << i)) > 0
              && memory_type.property_flags.contains(required_properties))
        .map(|(i, _)| i as u32)
        .ok_or(anyhow!("failed to find suitable memory type"))

`contains` on Vulkan flag sets is `flags & required == required`.  The
enumerated walk is embedded with an explicit running index. -/

/-- The enumerated `find` of `are_properties_supported`: walk the memory-type
list with running index `i`, returning the first index whose bit is set in
`type_filter` and whose flags contain `required_properties`. -/
def findMemoryType (type_filter required_properties : ℕ) :
    ℕ → List ℕ → Option ℕ
  | _, [] => none
  | i, property_flags :: rest =>
    if 0 < (type_filter &&& (1 <<< i)) ∧
        property_flags &&& required_properties = required_properties then
      some i
    else
      findMemoryType type_filter required_properties (i + 1) rest

/-- `Device::are_properties_supported`: `.ok` with the found index, or
`.error ()` standing for the `NoSuitableMemoryType` failure. -/
def arePropertiesSupported (memory_types : List ℕ)
    (type_filter required_properties : ℕ) : Except Unit ℕ :=
  match findMemoryType type_filter required_properties 0 memory_types with
  | some i => .ok i
  | none => .error ()

/-- The claim's matching condition at index `i`: bit `i` is set in the
bitmask and the memory type at index `i` has property flags that are a
superset of the required flags. -/
def memTypeMatches (memory_types : List ℕ)
    (type_filter required_properties i : ℕ) : Prop :=
  type_filter.testBit i ∧
    ∃ flags, memory_types[i]? = some flags ∧
      flags &&& required_properties = required_properties

instance (mt : List ℕ) (f r i : ℕ) : Decidable (memTypeMatches mt f r i) := by
  unfold memTypeMatches; infer_instance

lemma and_one_shiftLeft_pos_iff_testBit (f i : ℕ) :
    0 < (f &&& (1 <<< i)) ↔ f.testBit i := by
  rw [Nat.one_shiftLeft, Nat.and_two_pow]
  cases h : f.testBit i <;> simp [h]

lemma findMemoryType_some_iff (f r : ℕ) : ∀ (ts : List ℕ) (i k : ℕ),
    findMemoryType f r i ts = some k ↔
      ∃ d flags, k = i + d ∧ ts[d]? = some flags ∧
        (f.testBit k ∧ flags &&& r = r) ∧
        ∀ d' flags', d' < d → ts[d']? = some flags' →
          ¬(f.testBit (i + d') ∧ flags' &&& r = r) := by
  intro ts
  induction ts with
  | nil => intro i k; simp [findMemoryType]
  | cons flags rest ih =>
    intro i k
    rw [findMemoryType]
    by_cases hhead : 0 < (f &&& (1 <<< i)) ∧ flags &&& r = r
    · rw [if_pos hhead]
      rw [and_one_shiftLeft_pos_iff_testBit] at hhead
      constructor
      · rintro h
        obtain rfl : i = k := by injection h
        exact ⟨0, flags, by simp, by simp, by simpa using hhead, by omega⟩
      · rintro ⟨d, flags', hk, hget, _, hmin⟩
        rcases Nat.eq_zero_or_pos d with rfl | hd
        · simp [hk]
        · exfalso
          exact hmin 0 flags hd (by simp) (by simpa [hk] using hhead)
    · rw [if_neg hhead]
      rw [and_one_shiftLeft_pos_iff_testBit] at hhead
      rw [ih (i + 1) k]
      constructor
      · rintro ⟨d, flags', hk, hget, hmatch, hmin⟩
        refine ⟨d + 1, flags', by omega, by simpa using hget, hmatch, ?_⟩
        intro d' flagsd hd' hgetd
        rcases Nat.eq_zero_or_pos d' with rfl | hpos
        · simp only [List.getElem?_cons_zero, Option.some_inj] at hgetd
          subst hgetd
          simpa using hhead
        · obtain ⟨e, rfl⟩ : ∃ e, d' = e + 1 := ⟨d' - 1, by omega⟩
          have := hmin e flagsd (by omega) (by simpa using hgetd)
          simpa [Nat.add_assoc, Nat.add_comm 1 e] using this
      · rintro ⟨d, flags', hk, hget, hmatch, hmin⟩
        rcases Nat.eq_zero_or_pos d with rfl | hd
        · exfalso
          simp only [List.getElem?_cons_zero, Option.some_inj] at hget
          subst hget
          exact hhead ⟨by simpa [hk] using hmatch.1, hmatch.2⟩
        · obtain ⟨e, rfl⟩ : ∃ e, d = e + 1 := ⟨d - 1, by omega⟩
          refine ⟨e, flags', by omega, by simpa using hget, hmatch, ?_⟩
          intro d' flagsd hd' hgetd
          have := hmin (d' + 1) flagsd (by omega) (by simpa using hgetd)
          simpa [Nat.add_assoc, Nat.add_comm 1 d'] using this

lemma findMemoryType_none_iff (f r : ℕ) : ∀ (ts : List ℕ) (i : ℕ),
    findMemoryType f r i ts = none ↔
      ∀ d flags, ts[d]? = some flags →
        ¬(f.testBit (i + d) ∧ flags &&& r = r) := by
  intro ts
  induction ts with
  | nil => intro i; simp [findMemoryType]
  | cons flags rest ih =>
    intro i
    rw [findMemoryType]
    by_cases hhead : 0 < (f &&& (1 <<< i)) ∧ flags &&& r = r
    · rw [if_pos hhead]
      rw [and_one_shiftLeft_pos_iff_testBit] at hhead
      constructor
      · intro h; cases h
      · intro hall; exact absurd (by simpa using hhead) (hall 0 flags (by simp))
    · rw [if_neg hhead]
      rw [and_one_shiftLeft_pos_iff_testBit] at hhead
      rw [ih (i + 1)]
      constructor
      · intro h d flagsd hget
        rcases Nat.eq_zero_or_pos d with rfl | hd
        · simp only [List.getElem?_cons_zero, Option.some_inj] at hget
          subst hget
          simpa using fun ht hc => hhead ⟨by simpa using ht, hc⟩
        · obtain ⟨e, rfl⟩ : ∃ e, d = e + 1 := ⟨d - 1, by omega⟩
          have := h e flagsd (by simpa using hget)
          simpa [Nat.add_assoc, Nat.add_comm 1 e] using this
      · intro h d flagsd hget
        have := h (d + 1) flagsd (by simpa using hget)
        simpa [Nat.add_assoc, Nat.add_comm 1 d] using this

/-- Claim C2: `are_properties_supported` returns `.ok i` exactly when `i` is
the lowest index whose bit is set in the requirement bitmask and whose
memory-type flags are a superset of the required flags, and returns the
`NoSuitableMemoryType` error exactly when no index matches.  Determinism in
the inputs and the device's memory-type table is immediate: the embedding is
a pure function of `memory_types`, `type_filter` and `required_properties`,
so equal inputs always give the same chosen index. -/
theorem arePropertiesSupported_lowest_match
    (memory_types : List ℕ) (type_filter required_properties : ℕ) :
    (∀ i, arePropertiesSupported memory_types type_filter required_properties
        = .ok i ↔
      (memTypeMatches memory_types type_filter required_properties i ∧
        ∀ j < i,
          ¬memTypeMatches memory_types type_filter required_properties j)) ∧
    (arePropertiesSupported memory_types type_filter required_properties
        = .error () ↔
      ∀ i, ¬memTypeMatches memory_types type_filter required_properties i) := by
  constructor
  · intro i
    unfold arePropertiesSupported
    constructor
    · intro h
      have hfind : findMemoryType type_filter required_properties 0 memory_types
          = some i := by
        cases hf : findMemoryType type_filter required_properties 0 memory_types with
        | none => rw [hf] at h; exact absurd h (by simp)
        | some k => rw [hf] at h; injection h with h'; rw [h']
      rw [findMemoryType_some_iff] at hfind
      obtain ⟨d, flags, hk, hget, hmatch, hmin⟩ := hfind
      simp only [Nat.zero_add] at hk
      subst hk
      refine ⟨⟨hmatch.1, flags, hget, hmatch.2⟩, ?_⟩
      intro j hj ⟨ht, flagsj, hgetj, hcj⟩
      exact hmin j flagsj hj hgetj ⟨by simpa using ht, hcj⟩
    · rintro ⟨⟨ht, flags, hget, hc⟩, hmin⟩
      have : findMemoryType type_filter required_properties 0 memory_types
          = some i := by
        rw [findMemoryType_some_iff]
        refine ⟨i, flags, by simp, hget, ⟨ht, hc⟩, ?_⟩
        intro d' flags' hd' hget' ⟨ht', hc'⟩
        exact hmin d' (by simpa using hd') ⟨by simpa using ht', flags', hget', hc'⟩
      rw [this]
  · unfold arePropertiesSupported
    constructor
    · intro h i ⟨ht, flags, hget, hc⟩
      have hfind : findMemoryType type_filter required_properties 0 memory_types
          = none := by
        cases hf : findMemoryType type_filter required_properties 0 memory_types with
        | none => rfl
        | some k => rw [hf] at h; exact absurd h (by simp)
      rw [findMemoryType_none_iff] at hfind
      exact hfind i flags hget ⟨by simpa using ht, hc⟩
    · intro h
      have : findMemoryType type_filter required_properties 0 memory_types
          = none := by
        rw [findMemoryType_none_iff]
        intro d flags hget ⟨ht, hc⟩
        exact h d ⟨by simpa using ht, flags, hget, hc⟩
      rw [this]

/-- Witness for C2: on the concrete memory-type table `[1, 3, 7]` with
requirement bitmask `6` (bits 1 and 2) and required flags `3`, the selected
type is the lowest matching index 1. -/
theorem arePropertiesSupported_lowest_match_witness :
    arePropertiesSupported [1, 3, 7] 6 3 = .ok 1 :=
  ((arePropertiesSupported_lowest_match [1, 3, 7] 6 3).1 1).mpr
    ⟨by decide, by decide⟩

/-! ## Image layout transitions (image.rs 20-65, 156-214)

`vk::ImageLayout` is embedded as an enumeration of the layouts the engine
can meet; `TransitionBarrier::from_layout` is the lookup table keyed by the
`(old_layout, new_layout)` pair, and `ImageData::transition_image_layout`
either propagates its error (recording nothing) or produces the one-shot
submission whose single recorded command is the pipeline barrier. -/

/-- `vk::AccessFlags::TRANSFER_WRITE` -/
def ACCESS_TRANSFER_WRITE : ℕ := 0x1000
/-- `vk::AccessFlags::SHADER_READ` -/
def ACCESS_SHADER_READ : ℕ := 0x20
/-- `vk::AccessFlags::COLOR_ATTACHMENT_READ` -/
def ACCESS_COLOR_ATTACHMENT_READ : ℕ := 0x80
/-- `vk::AccessFlags::COLOR_ATTACHMENT_WRITE` -/
def ACCESS_COLOR_ATTACHMENT_WRITE : ℕ := 0x100
/-- `vk::AccessFlags::DEPTH_STENCIL_ATTACHMENT_READ` -/
def ACCESS_DEPTH_STENCIL_ATTACHMENT_READ : ℕ := 0x200
/-- `vk::AccessFlags::DEPTH_STENCIL_ATTACHMENT_WRITE` -/
def ACCESS_DEPTH_STENCIL_ATTACHMENT_WRITE : ℕ := 0x400

/-- `vk::PipelineStageFlags::TOP_OF_PIPE` -/
def STAGE_TOP_OF_PIPE : ℕ := 0x1
/-- `vk::PipelineStageFlags::FRAGMENT_SHADER` -/
def STAGE_FRAGMENT_SHADER : ℕ := 0x80
/-- `vk::PipelineStageFlags::EARLY_FRAGMENT_TESTS` -/
def STAGE_EARLY_FRAGMENT_TESTS : ℕ := 0x100
/-- `vk::PipelineStageFlags::COLOR_ATTACHMENT_OUTPUT` -/
def STAGE_COLOR_ATTACHMENT_OUTPUT : ℕ := 0x400
/-- `vk::PipelineStageFlags::TRANSFER` -/
def STAGE_TRANSFER : ℕ := 0x1000

/-- `vk::ImageAspectFlags::COLOR` -/
def ASPECT_COLOR : ℕ := 0x1
/-- `vk::ImageAspectFlags::DEPTH` -/
def ASPECT_DEPTH : ℕ := 0x2
/-- `vk::ImageAspectFlags::STENCIL` -/
def ASPECT_STENCIL : ℕ := 0x4

/-- The `vk::ImageLayout` values the engine can see. -/
inductive ImageLayout where
  | UNDEFINED
  | GENERAL
  | COLOR_ATTACHMENT_OPTIMAL
  | DEPTH_STENCIL_ATTACHMENT_OPTIMAL
  | DEPTH_STENCIL_READ_ONLY_OPTIMAL
  | SHADER_READ_ONLY_OPTIMAL
  | TRANSFER_SRC_OPTIMAL
  | TRANSFER_DST_OPTIMAL
  | PREINITIALIZED
  | PRESENT_SRC_KHR
deriving DecidableEq, Repr

/-- The `vk::Format` values named by image.rs. -/
inductive Format where
  | R8G8B8A8_SRGB
  | R8G8B8A8_SNORM
  | B8G8R8A8_SRGB
  | D32_SFLOAT
  | D32_SFLOAT_S8_UINT
  | D24_UNORM_S8_UINT
deriving DecidableEq, Repr

/-- The two `anyhow!` failures of `TransitionBarrier::from_layout`; both are
the spec's `UnsupportedLayoutTransition` error class. -/
inductive TransitionErr where
  | unsupportedNewLayout
  | unsupportedOldLayout
deriving DecidableEq, Repr

/-- The `{src_access_mask, dst_access_mask, source_stage, destination_stage}`
record selected by the lookup table. -/
structure TransitionBarrier where
  src_access_mask : ℕ
  dst_access_mask : ℕ
  source_stage : ℕ
  destination_stage : ℕ
deriving DecidableEq, Repr

/-- `TransitionBarrier::from_layout` (image.rs 20-65). -/
def TransitionBarrier.from_layout (old_layout new_layout : ImageLayout) :
    Except TransitionErr TransitionBarrier :=
  match old_layout with
  | .UNDEFINED =>
    match new_layout with
    | .TRANSFER_DST_OPTIMAL =>
      .ok ⟨0, ACCESS_TRANSFER_WRITE, STAGE_TOP_OF_PIPE, STAGE_TRANSFER⟩
    | .DEPTH_STENCIL_ATTACHMENT_OPTIMAL =>
      .ok ⟨0,
        ACCESS_DEPTH_STENCIL_ATTACHMENT_READ |||
          ACCESS_DEPTH_STENCIL_ATTACHMENT_WRITE,
        STAGE_TOP_OF_PIPE, STAGE_EARLY_FRAGMENT_TESTS⟩
    | .COLOR_ATTACHMENT_OPTIMAL =>
      .ok ⟨0, ACCESS_COLOR_ATTACHMENT_READ ||| ACCESS_COLOR_ATTACHMENT_WRITE,
        STAGE_TOP_OF_PIPE, STAGE_COLOR_ATTACHMENT_OUTPUT⟩
    | _ => .error .unsupportedNewLayout
  | .TRANSFER_DST_OPTIMAL =>
    if new_layout = .SHADER_READ_ONLY_OPTIMAL then
      .ok ⟨ACCESS_TRANSFER_WRITE, ACCESS_SHADER_READ, STAGE_TRANSFER,
        STAGE_FRAGMENT_SHADER⟩
    else .error .unsupportedOldLayout
  | _ => .error .unsupportedOldLayout

/-- `ImageData::has_stencil_component` (image.rs 152-154). -/
def has_stencil_component (format : Format) : Bool :=
  format = Format.D32_SFLOAT_S8_UINT || format = Format.D24_UNORM_S8_UINT

/-- One entry of the trace of device calls a layout transition performs.
`allocCommandBuffer` .. `freeCommandBuffer` are the steps of
`CommandBuffer::record_and_submit_single_command`; `pipelineBarrier` is the
single command the transition records. -/
inductive ImgOp where
  | allocCommandBuffer
  | beginCommandBuffer
  | pipelineBarrier (source_stage destination_stage : ℕ)
      (src_access_mask dst_access_mask aspect_mask : ℕ)
      (old_layout new_layout : ImageLayout) (mip_levels : ℕ)
  | endCommandBuffer
  | queueSubmit
  | queueWaitIdle
  | freeCommandBuffer
deriving DecidableEq, Repr

/-- `CommandBuffer::record_and_submit_single_command` (buffers.rs 17-74) on
its successful path, specialized to image commands: allocate a primary
command buffer, begin it one-time-submit, record the given commands, end it,
submit to the graphics queue, wait for queue idle, free the buffer. -/
def recordAndSubmitSingleImgCommand (inner : List ImgOp) : List ImgOp :=
  [ImgOp.allocCommandBuffer, ImgOp.beginCommandBuffer] ++ inner ++
    [ImgOp.endCommandBuffer, ImgOp.queueSubmit, ImgOp.queueWaitIdle,
      ImgOp.freeCommandBuffer]

/-- `ImageData::transition_image_layout` (image.rs 156-214): consult the
lookup table first (`?`), so an unsupported pair returns the error before
any command buffer is touched; otherwise record and submit the single
pipeline-barrier command.  The returned list is the trace of device calls. -/
def transition_image_layout (format : Format)
    (old_layout new_layout : ImageLayout) (mip_levels : ℕ) :
    Except TransitionErr (List ImgOp) :=
  (TransitionBarrier.from_layout old_layout new_layout).map
    (fun barrier =>
      let aspect_mask : ℕ :=
        match new_layout with
        | .DEPTH_STENCIL_ATTACHMENT_OPTIMAL =>
          if has_stencil_component format then ASPECT_DEPTH ||| ASPECT_STENCIL
          else ASPECT_DEPTH
        | _ => ASPECT_COLOR
      recordAndSubmitSingleImgCommand
        [ImgOp.pipelineBarrier barrier.source_stage barrier.destination_stage
          barrier.src_access_mask barrier.dst_access_mask aspect_mask
          old_layout new_layout mip_levels])

/-- The supported set of the claim: undefined→transfer-dst,
undefined→depth-stencil-attachment-optimal,
undefined→color-attachment-optimal, transfer-dst→shader-read-only. -/
def supportedTransitionPair : ImageLayout → ImageLayout → Bool
  | .UNDEFINED, .TRANSFER_DST_OPTIMAL => true
  | .UNDEFINED, .DEPTH_STENCIL_ATTACHMENT_OPTIMAL => true
  | .UNDEFINED, .COLOR_ATTACHMENT_OPTIMAL => true
  | .TRANSFER_DST_OPTIMAL, .SHADER_READ_ONLY_OPTIMAL => true
  | _, _ => false

/-- Claim C4: for every `(old_layout, new_layout)` pair outside the supported
set, `transition_image_layout` fails with an unsupported-layout-transition
error and produces no commands at all: the `.error` result carries no
trace, so nothing is recorded or submitted.  The witness below instantiates
it at the pair `(COLOR_ATTACHMENT_OPTIMAL → UNDEFINED)` named by the spec. -/
theorem transition_image_layout_unsupported
    (format : Format) (old_layout new_layout : ImageLayout) (mip_levels : ℕ)
    (h : supportedTransitionPair old_layout new_layout = false) :
    ∃ e, transition_image_layout format old_layout new_layout mip_levels
      = .error e := by
  cases old_layout <;> cases new_layout <;>
    simp_all [transition_image_layout, TransitionBarrier.from_layout,
      supportedTransitionPair, Except.map]

/-- Witness for C4: the pair `(COLOR_ATTACHMENT_OPTIMAL → UNDEFINED)` is
outside the supported set and fails, recording no command. -/
theorem transition_image_layout_unsupported_witness :
    supportedTransitionPair ImageLayout.COLOR_ATTACHMENT_OPTIMAL
        ImageLayout.UNDEFINED = false ∧
      ∃ e, transition_image_layout Format.R8G8B8A8_SRGB
        ImageLayout.COLOR_ATTACHMENT_OPTIMAL ImageLayout.UNDEFINED 1
        = .error e :=
  ⟨by decide,
    transition_image_layout_unsupported Format.R8G8B8A8_SRGB
      ImageLayout.COLOR_ATTACHMENT_OPTIMAL ImageLayout.UNDEFINED 1
      (by decide)⟩

/-! ## Staged transfer engine (buffers.rs 17-74, 137-268)

Buffers are embedded as the record of what they were created with; the
upload path is embedded as the trace of device calls it performs on its
successful path, one event per Vulkan call of the Rust code. -/

/-- What `BufferInfo::create` asked the device for: size in bytes, usage
flags, required memory property flags. -/
structure BufferInfo where
  size : ℕ
  usage : ℕ
  mem_props : ℕ
deriving DecidableEq, Repr

/-- One device call of the staged-transfer path. -/
inductive BufOp where
  | createBuffer (info : BufferInfo)
  | mapMemory (buf : BufferInfo) (offset size : ℕ)
  | copyFromNonoverlapping (len : ℕ)
  | unmapMemory (buf : BufferInfo)
  | allocCommandBuffer
  | beginCommandBuffer
  | cmdCopyBuffer (src dst : BufferInfo) (size : ℕ)
  | endCommandBuffer
  | queueSubmitGraphics
  | queueWaitIdleGraphics
  | freeCommandBuffer
deriving DecidableEq, Repr

/-- `BufferInfo::create` (buffers.rs 138-189): create the buffer, pick a
memory type with `are_properties_supported`, allocate and bind; the result
records size, usage and the required memory properties. -/
def BufferInfo.create (size usage mem_props : ℕ) : BufferInfo × List BufOp :=
  let info : BufferInfo := ⟨size, usage, mem_props⟩
  (info, [BufOp.createBuffer info])

/-- `CommandBuffer::record_and_submit_single_command` (buffers.rs 17-74) on
its successful path: allocate one primary command buffer, begin it
one-time-submit, record `inner`, end it, submit it to the graphics queue,
wait for the queue to go idle, then free the command buffer. -/
def recordAndSubmitSingleBufCommand (inner : List BufOp) : List BufOp :=
  [BufOp.allocCommandBuffer, BufOp.beginCommandBuffer] ++ inner ++
    [BufOp.endCommandBuffer, BufOp.queueSubmitGraphics,
      BufOp.queueWaitIdleGraphics, BufOp.freeCommandBuffer]

/-- `BufferInfo::copy_to_gpu` (buffers.rs 191-212): a one-shot command
copying the whole source buffer (`size: self.size`) into `dest`. -/
def BufferInfo.copy_to_gpu (src dest : BufferInfo) : List BufOp :=
  recordAndSubmitSingleBufCommand [BufOp.cmdCopyBuffer src dest src.size]

/-- `BufferInfo::create_gpu_local_buffer` (buffers.rs 214-268).  `data` is a
slice of `data_len` elements of `elem_size` bytes, so
`size_of_val(data) = elem_size * data_len`; `buffer_size` is the optional
size override (`None` for the plain staged path). -/
def create_gpu_local_buffer (usage_flag : ℕ) (elem_size data_len : ℕ)
    (buffer_size : Option ℕ) : BufferInfo × List BufOp :=
  let default_buffer_size := elem_size * data_len
  let buffer_size := buffer_size.getD default_buffer_size
  let (staging_buffer, t1) := BufferInfo.create buffer_size
    BUFFER_USAGE_TRANSFER_SRC
    (MEMORY_PROPERTY_HOST_VISIBLE ||| MEMORY_PROPERTY_HOST_COHERENT)
  let t2 := [BufOp.mapMemory staging_buffer 0 buffer_size,
    BufOp.copyFromNonoverlapping data_len, BufOp.unmapMemory staging_buffer]
  let (gpu_buffer, t3) := BufferInfo.create buffer_size
    (BUFFER_USAGE_TRANSFER_DST ||| usage_flag) MEMORY_PROPERTY_DEVICE_LOCAL
  (gpu_buffer, t1 ++ t2 ++ t3 ++ staging_buffer.copy_to_gpu gpu_buffer)

/-- Claim C5: the staged path with no size override creates a
host-visible+host-coherent staging buffer sized to the data's byte length,
maps it and copies the data in with the non-overlapping copy primitive,
unmaps, creates a device-local destination with the requested usage flags
together with `TRANSFER_DST`, and runs a one-shot command buffer copying
staging to destination on the graphics queue — submitting, waiting for
queue idle, and freeing the one-shot buffer afterward, in that order.  The
trace equality exhibits exactly these calls and this order, and the
returned buffer is the device-local destination. -/
theorem create_gpu_local_buffer_staged_path
    (usage_flag elem_size data_len : ℕ) :
    create_gpu_local_buffer usage_flag elem_size data_len none =
      (⟨elem_size * data_len, BUFFER_USAGE_TRANSFER_DST ||| usage_flag,
          MEMORY_PROPERTY_DEVICE_LOCAL⟩,
        [BufOp.createBuffer ⟨elem_size * data_len, BUFFER_USAGE_TRANSFER_SRC,
            MEMORY_PROPERTY_HOST_VISIBLE ||| MEMORY_PROPERTY_HOST_COHERENT⟩,
          BufOp.mapMemory ⟨elem_size * data_len, BUFFER_USAGE_TRANSFER_SRC,
            MEMORY_PROPERTY_HOST_VISIBLE ||| MEMORY_PROPERTY_HOST_COHERENT⟩
            0 (elem_size * data_len),
          BufOp.copyFromNonoverlapping data_len,
          BufOp.unmapMemory ⟨elem_size * data_len, BUFFER_USAGE_TRANSFER_SRC,
            MEMORY_PROPERTY_HOST_VISIBLE ||| MEMORY_PROPERTY_HOST_COHERENT⟩,
          BufOp.createBuffer ⟨elem_size * data_len,
            BUFFER_USAGE_TRANSFER_DST ||| usage_flag,
            MEMORY_PROPERTY_DEVICE_LOCAL⟩,
          BufOp.allocCommandBuffer,
          BufOp.beginCommandBuffer,
          BufOp.cmdCopyBuffer
            ⟨elem_size * data_len, BUFFER_USAGE_TRANSFER_SRC,
              MEMORY_PROPERTY_HOST_VISIBLE ||| MEMORY_PROPERTY_HOST_COHERENT⟩
            ⟨elem_size * data_len, BUFFER_USAGE_TRANSFER_DST ||| usage_flag,
              MEMORY_PROPERTY_DEVICE_LOCAL⟩
            (elem_size * data_len),
          BufOp.endCommandBuffer,
          BufOp.queueSubmitGraphics,
          BufOp.queueWaitIdleGraphics,
          BufOp.freeCommandBuffer]) := rfl

/-! ## Descriptor and uniform-buffer setup (buffers.rs 303-423, 487-636) -/

/-- A created uniform buffer: the device hands back a fresh handle for each
`create` call; `info` records what it was created with. -/
structure UniformBufferHandle where
  handle : ℕ
  info : BufferInfo
deriving DecidableEq, Repr

/-- `UniformBuffers::create` (buffers.rs 306-314): a `UNIFORM_BUFFER`-usage,
host-visible + host-coherent buffer sized to the uniform data type. -/
def uniformBufferCreate (data_size handle : ℕ) : UniformBufferHandle :=
  ⟨handle, (BufferInfo.create data_size BUFFER_USAGE_UNIFORM_BUFFER
    (MEMORY_PROPERTY_HOST_VISIBLE ||| MEMORY_PROPERTY_HOST_COHERENT)).1⟩

/-- The descriptor pool of `create_descriptor_pool` (buffers.rs 349-371):
one `UNIFORM_BUFFER` pool size with `descriptor_count = pool_size_count`
and `max_sets = pool_size_count`. -/
structure DescriptorPool where
  descriptor_count : ℕ
  max_sets : ℕ
deriving DecidableEq, Repr

/-- `UniformBuffers::create_descriptor_pool` (buffers.rs 349-371). -/
def create_descriptor_pool (pool_size_count : ℕ) : DescriptorPool :=
  ⟨pool_size_count, pool_size_count⟩

/-- `UniformBuffers::create_descriptor_sets` (buffers.rs 373-422): size the
pool to the number of uniform buffers, allocate that many sets (fresh
handles `0, 1, ...`), and write each set to point at its zipped uniform
buffer.  Returns the pool, the allocated set handles, and the
(buffer, set) write pairs produced by `uniform_buffers.iter().zip(...)`. -/
def create_descriptor_sets (uniform_buffers : List UniformBufferHandle) :
    DescriptorPool × List ℕ × List (UniformBufferHandle × ℕ) :=
  let num_sets := uniform_buffers.length
  let pool := create_descriptor_pool num_sets
  let descriptor_sets := List.range num_sets
  (pool, descriptor_sets, uniform_buffers.zip descriptor_sets)

/-- One command recorded into a per-swapchain-image command buffer by
`create_command_buffers` (buffers.rs 487-565). -/
inductive DrawCmd where
  | beginRenderPass (framebuffer : ℕ)
  | bindPipeline
  | bindVertexBuffers
  | bindIndexBuffer (index_buffer : BufferInfo)
  | bindDescriptorSets (descriptor_set : ℕ)
  | drawIndexed (index_count instance_count first_index vertex_offset
      first_instance : ℕ)
  | endRenderPass
deriving DecidableEq, Repr

/-- `BufferDetails::create_command_buffers` (buffers.rs 487-565): one
command buffer per framebuffer; each records begin-render-pass, bind
pipeline, bind vertex/index buffers, bind the image's descriptor set, an
indexed draw of the hard-coded `6u32` indices, end render pass. -/
def create_command_buffers (framebuffers : List ℕ)
    (index_buffer : BufferInfo) (descriptor_sets : List ℕ) :
    List (List DrawCmd) :=
  (List.range framebuffers.length).map (fun i =>
    [DrawCmd.beginRenderPass (framebuffers.getD i 0),
      DrawCmd.bindPipeline,
      DrawCmd.bindVertexBuffers,
      DrawCmd.bindIndexBuffer index_buffer,
      DrawCmd.bindDescriptorSets (descriptor_sets.getD i 0),
      DrawCmd.drawIndexed 6 1 0 0 0,
      DrawCmd.endRenderPass])

/-- The parts of `BufferDetails` (buffers.rs 425-433) the claims are about. -/
structure BufferDetails where
  framebuffers : List ℕ
  vertex_buffer : BufferInfo
  index_buffer : BufferInfo
  uniform_buffers : List UniformBufferHandle
  descriptor_pool : DescriptorPool
  descriptor_bindings : List (UniformBufferHandle × ℕ)
  command_buffers : List (List DrawCmd)
deriving DecidableEq, Repr

/-- `BufferDetails::new` (buffers.rs 567-635): one framebuffer per swapchain
image view; vertex and index buffers through the staged path; one uniform
buffer per framebuffer (`(0..framebuffers.len()).map(|_| create(...))`,
each call returning a fresh handle); descriptor sets sized and bound over
those uniform buffers; pre-recorded command buffers over the framebuffers.
`index_data_len` is the length of the `index_data: Vec<u32>` argument. -/
def BufferDetails.new (image_views : List ℕ)
    (vertex_elem_size vertex_count index_data_len uniform_data_size : ℕ) :
    BufferDetails :=
  let framebuffers := image_views
  let vertex_buffer := (create_gpu_local_buffer BUFFER_USAGE_VERTEX_BUFFER
    vertex_elem_size vertex_count none).1
  let index_buffer := (create_gpu_local_buffer BUFFER_USAGE_INDEX_BUFFER
    4 index_data_len none).1
  let uniform_buffers := (List.range framebuffers.length).map
    (uniformBufferCreate uniform_data_size)
  let (pool, descriptor_sets, bindings) :=
    create_descriptor_sets uniform_buffers
  let command_buffers :=
    create_command_buffers framebuffers index_buffer descriptor_sets
  ⟨framebuffers, vertex_buffer, index_buffer, uniform_buffers, pool,
    bindings, command_buffers⟩

/-- Claim C6: at setup exactly one uniform buffer is created per swapchain
image — the uniform-buffer list has one entry per image view, every entry is
a distinct buffer (fresh handle) created CPU-visible
(host-visible + host-coherent, `UNIFORM_BUFFER` usage) — the descriptor
pool is sized exactly to the swapchain image count (both `max_sets` and the
pool's descriptor count), and one descriptor set per image is allocated and
bound to that image's own uniform buffer (the `i`-th binding pairs the
`i`-th uniform buffer with the `i`-th set). -/
theorem buffer_details_one_uniform_per_image (image_views : List ℕ)
    (vertex_elem_size vertex_count index_data_len uniform_data_size : ℕ) :
    (BufferDetails.new image_views vertex_elem_size vertex_count
        index_data_len uniform_data_size).uniform_buffers.length
      = image_views.length ∧
    ((BufferDetails.new image_views vertex_elem_size vertex_count
        index_data_len uniform_data_size).uniform_buffers.map
          UniformBufferHandle.handle).Nodup ∧
    (∀ ub ∈ (BufferDetails.new image_views vertex_elem_size vertex_count
        index_data_len uniform_data_size).uniform_buffers,
      ub.info = ⟨uniform_data_size, BUFFER_USAGE_UNIFORM_BUFFER,
        MEMORY_PROPERTY_HOST_VISIBLE ||| MEMORY_PROPERTY_HOST_COHERENT⟩) ∧
    (BufferDetails.new image_views vertex_elem_size vertex_count
        index_data_len uniform_data_size).descriptor_pool
      = ⟨image_views.length, image_views.length⟩ ∧
    (BufferDetails.new image_views vertex_elem_size vertex_count
        index_data_len uniform_data_size).descriptor_bindings.length
      = image_views.length ∧
    ∀ i : ℕ, (BufferDetails.new image_views vertex_elem_size vertex_count
        index_data_len uniform_data_size).descriptor_bindings[i]?
      = ((BufferDetails.new image_views vertex_elem_size vertex_count
          index_data_len uniform_data_size).uniform_buffers[i]?).map
            (fun ub => (ub, i)) := by
  refine ⟨?_, ?_, ?_, ?_, ?_, ?_⟩
  · simp [BufferDetails.new, create_descriptor_sets]
  · simp only [BufferDetails.new, create_descriptor_sets, List.map_map]
    exact List.Nodup.map_on
      (fun x _ y _ hxy => by simpa [uniformBufferCreate] using hxy)
      (List.nodup_range _)
  · intro ub hub
    simp only [BufferDetails.new, create_descriptor_sets,
      List.mem_map] at hub
    obtain ⟨i, _, rfl⟩ := hub
    simp [uniformBufferCreate, BufferInfo.create]
  · simp [BufferDetails.new, create_descriptor_sets, create_descriptor_pool]
  · simp [BufferDetails.new, create_descriptor_sets, List.length_zip]
  · intro i
    simp only [BufferDetails.new, create_descriptor_sets, List.length_map,
      List.length_range]
    by_cases hi : i < image_views.length
    · have h1 : ((List.range image_views.length).map
          (uniformBufferCreate uniform_data_size))[i]?
          = some (uniformBufferCreate uniform_data_size i) := by
        simp [List.getElem?_map, List.getElem?_range, hi]
      have h2 : (List.range image_views.length)[i]? = some i := by
        simp [List.getElem?_range, hi]
      rw [h1, Option.map_some']
      rw [List.getElem?_zip_eq_some]
      exact ⟨h1, h2⟩
    · have hlen : (((List.range image_views.length).map
          (uniformBufferCreate uniform_data_size)).zip
            (List.range image_views.length)).length ≤ i := by
        simp [List.length_zip]; omega
      have hlen2 : ((List.range image_views.length).map
          (uniformBufferCreate uniform_data_size)).length ≤ i := by
        simp; omega
      rw [List.getElem?_eq_none hlen, List.getElem?_eq_none hlen2]
      rfl

/-- Witness for C6: in a concrete two-image setup, the first created
uniform buffer is a member of the uniform-buffer list and was created
CPU-visible (host-visible + host-coherent) with `UNIFORM_BUFFER` usage. -/
theorem buffer_details_one_uniform_per_image_witness :
    (uniformBufferCreate 192 0).info
      = ⟨192, BUFFER_USAGE_UNIFORM_BUFFER,
          MEMORY_PROPERTY_HOST_VISIBLE ||| MEMORY_PROPERTY_HOST_COHERENT⟩ :=
  (buffer_details_one_uniform_per_image [5, 6] 28 4 6 192).2.2.1
    (uniformBufferCreate 192 0)
    (by simp [BufferDetails.new, create_descriptor_sets, List.range_succ])

/-- Claim C9: every pre-recorded per-swapchain-image command buffer issues
an indexed draw of exactly 6 indices, whatever length of index data was
supplied to setup — there is a draw of 6 indices in each buffer, and every
indexed draw in any buffer draws 6. -/
theorem command_buffers_draw_exactly_six (image_views : List ℕ)
    (vertex_elem_size vertex_count index_data_len uniform_data_size : ℕ) :
    (BufferDetails.new image_views vertex_elem_size vertex_count
        index_data_len uniform_data_size).command_buffers.length
      = image_views.length ∧
    ∀ cmds ∈ (BufferDetails.new image_views vertex_elem_size vertex_count
        index_data_len uniform_data_size).command_buffers,
      DrawCmd.drawIndexed 6 1 0 0 0 ∈ cmds ∧
      ∀ n a b c d, DrawCmd.drawIndexed n a b c d ∈ cmds → n = 6 := by
  constructor
  · simp [BufferDetails.new, create_command_buffers, create_descriptor_sets]
  · intro cmds hcmds
    simp only [BufferDetails.new, create_descriptor_sets,
      create_command_buffers, List.mem_map] at hcmds
    obtain ⟨i, _, rfl⟩ := hcmds
    constructor
    · simp
    · intro n a b c d hmem
      simp only [List.mem_cons, List.not_mem_nil, or_false] at hmem
      rcases hmem with h | h | h | h | h | h | h <;> (cases h; try rfl)

/-- Witness for C9: a two-image swapchain set up with 9 indices of index
data still records a draw of exactly 6 indices in its first command
buffer. -/
theorem command_buffers_draw_exactly_six_witness :
    DrawCmd.drawIndexed 6 1 0 0 0 ∈
      [DrawCmd.beginRenderPass 10, DrawCmd.bindPipeline,
        DrawCmd.bindVertexBuffers,
        DrawCmd.bindIndexBuffer
          (create_gpu_local_buffer BUFFER_USAGE_INDEX_BUFFER 4 9 none).1,
        DrawCmd.bindDescriptorSets 0, DrawCmd.drawIndexed 6 1 0 0 0,
        DrawCmd.endRenderPass] ∧
    ∀ n a b c d, DrawCmd.drawIndexed n a b c d ∈
      [DrawCmd.beginRenderPass 10, DrawCmd.bindPipeline,
        DrawCmd.bindVertexBuffers,
        DrawCmd.bindIndexBuffer
          (create_gpu_local_buffer BUFFER_USAGE_INDEX_BUFFER 4 9 none).1,
        DrawCmd.bindDescriptorSets 0, DrawCmd.drawIndexed 6 1 0 0 0,
        DrawCmd.endRenderPass] → n = 6 :=
  (command_buffers_draw_exactly_six [10, 11] 28 4 9 192).2
    [DrawCmd.beginRenderPass 10, DrawCmd.bindPipeline,
      DrawCmd.bindVertexBuffers,
      DrawCmd.bindIndexBuffer
        (create_gpu_local_buffer BUFFER_USAGE_INDEX_BUFFER 4 9 none).1,
      DrawCmd.bindDescriptorSets 0, DrawCmd.drawIndexed 6 1 0 0 0,
      DrawCmd.endRenderPass]
    (by simp [BufferDetails.new, create_command_buffers,
      create_descriptor_sets, List.range_succ])

/-! ## Frame synchronization engine (sync.rs)

`Objects::draw_next_frame` is embedded as a state-transition function.  The
device is abstracted by a `TickEnv` giving the outcomes of one tick's
fallible device calls (whether each `wait_for_fences` / `reset_fences` /
`queue_submit` returns `Ok`, the `acquire_next_image` result, the elapsed
`Instant` duration, the `queue_present` result).  Fences, semaphores and
command buffers are identified by natural-number handles.  Each call also
returns the trace of synchronization events it successfully performed, in
program order; an event is emitted only when the corresponding device call
returned `Ok`.  Rust mutates `self` in place and `?`-returns early, so the
partially mutated state is returned on errors exactly where the source
mutates before failing. -/

/-- `std::time::Duration`: seconds plus sub-second nanoseconds
(`nanos < 10^9`). -/
structure Duration where
  secs : ℕ
  nanos : ℕ
  nanos_lt : nanos < 1000000000
deriving DecidableEq

/-- `Duration::subsec_micros`: the sub-second part in whole microseconds. -/
def Duration.subsec_micros (d : Duration) : ℕ := d.nanos / 1000

/-- The value sync.rs 259 passes to `update_buffer`:
`delta_time.subsec_micros() as f32 / 1_000_000.0_f32`, idealized over the
rationals. -/
def deltaTimeArg (d : Duration) : ℚ := (d.subsec_micros : ℚ) / 1000000

/-- The duration's full length in seconds, as a rational: what "the elapsed
wall-clock time since the previous tick, in seconds" denotes. -/
def elapsedSeconds (d : Duration) : ℚ := (d.secs : ℚ) + (d.nanos : ℚ) / 1000000000

/-- `FrameState` (sync.rs 13-17). -/
structure FrameState where
  swapchain_image_index : ℕ
  current_frame : ℕ
  images_in_flight : List (Option ℕ)
deriving DecidableEq

/-- `FrameState::default` (sync.rs 20-31): frame 0, no image bound to any
fence yet. -/
def FrameState.default (num_swapchain_images : ℕ) : FrameState :=
  ⟨0, 0, List.replicate num_swapchain_images none⟩

/-- The fields of `Objects` (sync.rs 34-49) that `draw_next_frame` reads or
writes.  Handles are natural numbers; `command_buffers` and
`uniform_buffers` are the per-swapchain-image vectors of
`BufferDetails`. -/
structure Objects where
  frames_in_flight : ℕ
  image_available_semaphores : List ℕ
  render_finished_semaphores : List ℕ
  in_flight_fences : List ℕ
  command_buffers : List ℕ
  uniform_buffers : List ℕ
  frame_state : FrameState
deriving DecidableEq

/-- The errors `draw_next_frame` can propagate (each `anyhow!`/`?` site of
sync.rs, by class). -/
inductive VkErr where
  | missingFence
  | deviceWait
  | missingSemaphore
  | acquireOutOfDate
  | acquireFailed
  | missingUniformBuffer
  | mapFailed
  | missingImageFence
  | missingCommandBuffer
  | resetFailed
  | submitFailed
  | presentFailed
  | swapchainInvalid
deriving DecidableEq, Repr

/-- A synchronization event successfully performed during one tick.
`waitFence f` is a completed `wait_for_fences([f], true, u64::MAX)`;
`submit idx f` is a `queue_submit` of the command buffer for swapchain
image `idx` signaling fence `f`; `present idx` is the `queue_present`
call for image `idx`. -/
inductive Ev where
  | waitFence (fence : ℕ)
  | acquireImage (index : ℕ)
  | updateUniform (index : ℕ) (delta_time : ℚ)
  | resetFence (fence : ℕ)
  | submit (index fence : ℕ)
  | present (index : ℕ)
deriving DecidableEq

deriving instance DecidableEq for Except

/-- The device-side outcomes of one `draw_next_frame` call. -/
structure TickEnv where
  /-- does the wait on the current slot's fence return `Ok`? -/
  waitCurrentOk : Bool
  /-- `acquire_next_image`: `.ok index`, or `.error true` for
  `ERROR_OUT_OF_DATE_KHR`, `.error false` for any other failure. -/
  acquire : Except Bool ℕ
  /-- `self.start_time.elapsed()` at this tick. -/
  elapsed : Duration
  /-- does `update_buffer`'s `map_memory` return `Ok`? -/
  updateOk : Bool
  /-- does the wait on a recorded image-in-flight fence return `Ok`? -/
  waitImageOk : Bool
  /-- does `reset_fences` return `Ok`? -/
  resetOk : Bool
  /-- does `queue_submit` return `Ok`? -/
  submitOk : Bool
  /-- `queue_present`: `.ok is_suboptimal`, or `.error ()`. -/
  present : Except Unit Bool
deriving DecidableEq

/-- The part of `draw_next_frame` (sync.rs 204-278) before any state
mutation: wait on the current slot's fence, look up the current slot's
image-available semaphore, acquire the image, look up and update the
acquired image's uniform buffer, and wait on the fence recorded for the
acquired image if there is one.  Returns the current slot's fence and the
acquired index on success, together with the events performed. -/
def preChecks (o : Objects) (env : TickEnv) :
    Except VkErr (ℕ × ℕ) × List Ev :=
  match o.in_flight_fences[o.frame_state.current_frame]? with
  | none => (.error .missingFence, [])
  | some in_flight_fence =>
    if env.waitCurrentOk then
      match o.image_available_semaphores[o.frame_state.current_frame]? with
      | none => (.error .missingSemaphore, [Ev.waitFence in_flight_fence])
      | some _ =>
        match env.acquire with
        | .error true => (.error .acquireOutOfDate,
            [Ev.waitFence in_flight_fence])
        | .error false => (.error .acquireFailed,
            [Ev.waitFence in_flight_fence])
        | .ok acquired_image_index =>
          match o.uniform_buffers[acquired_image_index]? with
          | none => (.error .missingUniformBuffer,
              [Ev.waitFence in_flight_fence,
                Ev.acquireImage acquired_image_index])
          | some _ =>
            let tr := [Ev.waitFence in_flight_fence,
              Ev.acquireImage acquired_image_index,
              Ev.updateUniform acquired_image_index (deltaTimeArg env.elapsed)]
            if env.updateOk then
              match o.frame_state.images_in_flight[acquired_image_index]? with
              | none => (.error .missingImageFence, tr)
              | some none => (.ok (in_flight_fence, acquired_image_index), tr)
              | some (some image_in_flight) =>
                if env.waitImageOk then
                  (.ok (in_flight_fence, acquired_image_index),
                    tr ++ [Ev.waitFence image_in_flight])
                else (.error .deviceWait, tr)
            else (.error .mapFailed, tr)
    else (.error .deviceWait, [])

/-- `Objects::submit_buffers_to_queue` (sync.rs 117-202): look up the
command buffer for the acquired image and the current slot's fence and
semaphores, reset the fence, submit on the graphics queue signaling the
fence, then present; a suboptimal present is turned into the
swapchain-invalid error. -/
def submitBuffersToQueue (o : Objects) (env : TickEnv)
    (acquired_image_index : ℕ) : Except VkErr Unit × List Ev :=
  match o.command_buffers[acquired_image_index]? with
  | none => (.error .missingCommandBuffer, [])
  | some _ =>
    match o.in_flight_fences[o.frame_state.current_frame]? with
    | none => (.error .missingFence, [])
    | some in_flight_fence =>
      match o.image_available_semaphores[o.frame_state.current_frame]? with
      | none => (.error .missingSemaphore, [])
      | some _ =>
        match o.render_finished_semaphores[o.frame_state.current_frame]? with
        | none => (.error .missingSemaphore, [])
        | some _ =>
          if env.resetOk then
            if env.submitOk then
              let tr := [Ev.resetFence in_flight_fence,
                Ev.submit acquired_image_index in_flight_fence,
                Ev.present acquired_image_index]
              match env.present with
              | .error _ => (.error .presentFailed, tr)
              | .ok true => (.error .swapchainInvalid, tr)
              | .ok false => (.ok (), tr)
            else (.error .submitFailed, [Ev.resetFence in_flight_fence])
          else (.error .resetFailed, [])

/-- Line 279 of sync.rs:
`self.frame_state.images_in_flight[acquired_image_index] = Some(*in_flight_fence)`. -/
def recordImageFence (o : Objects) (acquired_image_index in_flight_fence : ℕ) :
    Objects :=
  { o with frame_state := { o.frame_state with
    images_in_flight := o.frame_state.images_in_flight.set
      acquired_image_index (some in_flight_fence) } }

/-- Lines 283-284 of sync.rs:
`self.frame_state.current_frame = (current_frame + 1) % frames_in_flight`. -/
def advanceFrame (o : Objects) : Objects :=
  { o with frame_state := { o.frame_state with
    current_frame := (o.frame_state.current_frame + 1) % o.frames_in_flight } }

/-- `Objects::draw_next_frame` (sync.rs 204-287).  After the pre-mutation
phase succeeds, the source records the current slot's fence as owning the
acquired image (line 279), submits and presents, and only on full success
advances `current_frame` to `(current_frame + 1) % frames_in_flight`
(lines 283-284).  Returns the `Result`, the state as mutated so far, and
the trace of events performed. -/
def drawNextFrame (o : Objects) (env : TickEnv) :
    Except VkErr Unit × Objects × List Ev :=
  match preChecks o env with
  | (.error e, tr) => (.error e, o, tr)
  | (.ok (in_flight_fence, acquired_image_index), tr) =>
    match submitBuffersToQueue
        (recordImageFence o acquired_image_index in_flight_fence) env
        acquired_image_index with
    | (.error e, tr2) =>
      (.error e, recordImageFence o acquired_image_index in_flight_fence,
        tr ++ tr2)
    | (.ok _, tr2) =>
      (.ok (), advanceFrame
          (recordImageFence o acquired_image_index in_flight_fence),
        tr ++ tr2)

/-- Run `draw_next_frame` repeatedly, stopping (with `none`) as soon as one
call fails: `some` results are reached by successful ticks only. -/
def runTicks : Objects → List TickEnv → Option Objects
  | o, [] => some o
  | o, env :: envs =>
    match drawNextFrame o env with
    | (.ok _, o', _) => runTicks o' envs
    | (.error _, _, _) => none

/-- One `draw_next_frame` call as a plain state transition, keeping the
(partially) mutated state whether or not the call succeeded. -/
def stepAny (o : Objects) (env : TickEnv) : Objects :=
  (drawNextFrame o env).2.1

lemma preChecks_ok_char {o : Objects} {env : TickEnv} {fence idx : ℕ}
    {tr : List Ev} (h : preChecks o env = (.ok (fence, idx), tr)) :
    o.in_flight_fences[o.frame_state.current_frame]? = some fence ∧
    env.acquire = .ok idx ∧
    ∃ rec, o.frame_state.images_in_flight[idx]? = some rec ∧
      tr = [Ev.waitFence fence, Ev.acquireImage idx,
        Ev.updateUniform idx (deltaTimeArg env.elapsed)] ++
        (match rec with | some f => [Ev.waitFence f] | none => []) := by
  unfold preChecks at h
  repeat' split at h
  all_goals
    first
    | (simp only [Prod.mk.injEq, Except.ok.injEq] at h
       obtain ⟨⟨rfl, rfl⟩, rfl⟩ := h
       refine ⟨by assumption, by assumption, ?_⟩
       first
       | exact ⟨none, by assumption, by simp⟩
       | exact ⟨some _, by assumption, by simp⟩)
    | simp at h

lemma preChecks_no_submit (o : Objects) (env : TickEnv) :
    ∀ (j i f : ℕ), ((preChecks o env).2)[j]? ≠ some (Ev.submit i f) := by
  intro j i f
  unfold preChecks
  repeat' split
  all_goals
    (simp only []
     rcases j with _ | _ | _ | _ | j <;> simp)

lemma drawNextFrame_ok_state {o : Objects} {env : TickEnv} {o' : Objects}
    {tr : List Ev} (h : drawNextFrame o env = (.ok (), o', tr)) :
    o'.frames_in_flight = o.frames_in_flight ∧
    o'.frame_state.current_frame =
      (o.frame_state.current_frame + 1) % o.frames_in_flight := by
  unfold drawNextFrame at h
  split at h
  · exact absurd h (by simp)
  · split at h
    · exact absurd h (by simp)
    · simp only [Prod.mk.injEq] at h
      obtain ⟨-, rfl, -⟩ := h
      simp [advanceFrame, recordImageFence]

lemma drawNextFrame_err_state {o : Objects} {env : TickEnv} {e : VkErr}
    {o' : Objects} {tr : List Ev} (h : drawNextFrame o env = (.error e, o', tr)) :
    o'.frames_in_flight = o.frames_in_flight ∧
    o'.frame_state.current_frame = o.frame_state.current_frame := by
  unfold drawNextFrame at h
  split at h
  · simp only [Prod.mk.injEq] at h
    obtain ⟨-, rfl, -⟩ := h
    simp
  · split at h
    · simp only [Prod.mk.injEq] at h
      obtain ⟨-, rfl, -⟩ := h
      simp [recordImageFence]
    · exact absurd h (by simp)

lemma runTicks_current_frame {o : Objects} : ∀ {envs : List TickEnv}
    {o' : Objects}, runTicks o envs = some o' →
    o'.frames_in_flight = o.frames_in_flight ∧
    o'.frame_state.current_frame =
      (o.frame_state.current_frame + envs.length) % o.frames_in_flight ∨
    (envs = [] ∧ o' = o) := by
  intro envs
  induction envs generalizing o with
  | nil => intro o' h; right; exact ⟨rfl, by simpa [runTicks] using h.symm⟩
  | cons env envs ih =>
    intro o' h
    left
    rw [runTicks] at h
    split at h
    · rename_i o1 tr heq
      have hstep := drawNextFrame_ok_state heq
      rcases ih h with ⟨hf, hc⟩ | ⟨rfl, rfl⟩
      · refine ⟨hf.trans hstep.1, ?_⟩
        rw [hc, hstep.2, hstep.1, List.length_cons]
        rw [Nat.mod_add_mod]
        ring_nf
      · refine ⟨hstep.1, ?_⟩
        rw [hstep.2]
        simp
    · exact absurd h (by simp)

/-- Claim C3: a successful `draw_next_frame` advances `current_frame` to
`(current_frame + 1) % frames_in_flight` and a failing one leaves it
unchanged; consequently, from any in-range `current_frame`, exactly
`frames_in_flight` consecutive successful ticks return `current_frame` to
its initial value. -/
theorem draw_next_frame_rotates_current_frame (o : Objects) (env : TickEnv) :
    ((∀ o' tr, drawNextFrame o env = (.ok (), o', tr) →
        o'.frame_state.current_frame =
          (o.frame_state.current_frame + 1) % o.frames_in_flight) ∧
      (∀ e o' tr, drawNextFrame o env = (.error e, o', tr) →
        o'.frame_state.current_frame = o.frame_state.current_frame)) ∧
    ∀ envs o', envs.length = o.frames_in_flight →
      o.frame_state.current_frame < o.frames_in_flight →
      runTicks o envs = some o' →
      o'.frame_state.current_frame = o.frame_state.current_frame := by
  refine ⟨⟨fun o' tr h => (drawNextFrame_ok_state h).2,
    fun e o' tr h => (drawNextFrame_err_state h).2⟩, ?_⟩
  intro envs o' hlen hlt hrun
  rcases runTicks_current_frame hrun with ⟨_, hc⟩ | ⟨hnil, rfl⟩
  · rw [hc, hlen, Nat.add_mod_right, Nat.mod_eq_of_lt hlt]
  · rfl

/-- Witness for C3: a concrete two-slot engine; a successful tick advances
`current_frame` from 0 to 1, a failing acquire leaves it at 0, and two
successful ticks return it to 0. -/
theorem draw_next_frame_rotates_current_frame_witness :
    ((∀ o' tr, drawNextFrame
        ⟨2, [20, 21], [30, 31], [10, 11], [40, 41], [50, 51],
          FrameState.default 2⟩
        ⟨true, .ok 0, ⟨0, 0, by decide⟩, true, true, true, true, .ok false⟩
        = (.ok (), o', tr) →
      o'.frame_state.current_frame = (0 + 1) % 2) ∧
      (∀ e o' tr, drawNextFrame
        ⟨2, [20, 21], [30, 31], [10, 11], [40, 41], [50, 51],
          FrameState.default 2⟩
        ⟨true, .ok 0, ⟨0, 0, by decide⟩, true, true, true, true, .ok false⟩
        = (.error e, o', tr) →
      o'.frame_state.current_frame = 0)) ∧
    ∀ envs o', envs.length = 2 → (0 : ℕ) < 2 →
      runTicks
        ⟨2, [20, 21], [30, 31], [10, 11], [40, 41], [50, 51],
          FrameState.default 2⟩ envs = some o' →
      o'.frame_state.current_frame = 0 := by
  have h := draw_next_frame_rotates_current_frame
    ⟨2, [20, 21], [30, 31], [10, 11], [40, 41], [50, 51],
      FrameState.default 2⟩
    ⟨true, .ok 0, ⟨0, 0, by decide⟩, true, true, true, true, .ok false⟩
  exact ⟨h.1, fun envs o' hlen _ hrun => h.2 envs o' hlen (by decide) hrun⟩

lemma submitBuffers_submit_pos (o : Objects) (env : TickEnv) (idx : ℕ) :
    ∀ (j i f : ℕ),
      ((submitBuffersToQueue o env idx).2)[j]? = some (Ev.submit i f) →
      j = 1 := by
  intro j i f
  unfold submitBuffersToQueue
  repeat' split
  all_goals (rcases j with _ | _ | _ | j <;> simp)

/-- Claim C1: whenever a `draw_next_frame` call submits work for the
acquired swapchain image `idx` (a `submit idx _` event appears in its
trace) and `idx` was already bound to a recorded in-flight fence `f`, the
call waited on `f` strictly before the submission (a completed
`waitFence f` precedes the submit in the trace), and the state after the
call records the current slot's fence as now owning image `idx`.  Work is
therefore never submitted for an image whose previously recorded fence is
still unsignaled: the wait on that fence completed earlier in the same
tick. -/
theorem draw_next_frame_waits_image_fence (o : Objects) (env : TickEnv)
    (idx f j fc : ℕ) (hacq : env.acquire = .ok idx)
    (hrec : o.frame_state.images_in_flight[idx]? = some (some f))
    (hsub : ((drawNextFrame o env).2.2)[j]? = some (Ev.submit idx fc)) :
    (∃ i, i < j ∧
      ((drawNextFrame o env).2.2)[i]? = some (Ev.waitFence f)) ∧
    ∃ fcur, o.in_flight_fences[o.frame_state.current_frame]? = some fcur ∧
      ((drawNextFrame o env).2.1).frame_state.images_in_flight[idx]?
        = some (some fcur) := by
  rcases hpre : preChecks o env with ⟨pres, ptr⟩
  cases pres with
  | error e =>
    have htr : (drawNextFrame o env).2.2 = ptr := by
      simp [drawNextFrame, hpre]
    rw [htr] at hsub
    have := preChecks_no_submit o env j idx fc
    rw [hpre] at this
    exact absurd hsub this
  | ok p =>
    obtain ⟨fence, idx'⟩ := p
    obtain ⟨hfence, hacq', rec, hrecs, htr⟩ := preChecks_ok_char hpre
    rw [hacq] at hacq'
    injection hacq' with hidx
    subst hidx
    rw [hrec] at hrecs
    injection hrecs with hrecs
    subst hrecs
    simp only [] at htr
    subst htr
    have hlt : idx < o.frame_state.images_in_flight.length := by
      rcases List.getElem?_eq_some_iff.mp hrec with ⟨hl, -⟩
      exact hl
    have hset : ((recordImageFence o idx fence).frame_state.images_in_flight)[idx]?
        = some (some fence) := by
      simp only [recordImageFence]
      exact List.getElem?_set_self (by simpa using hlt)
    rcases hsubq : submitBuffersToQueue (recordImageFence o idx fence) env idx
      with ⟨res2, tr2⟩
    have hdraw2 : (drawNextFrame o env).2.2
        = ([Ev.waitFence fence, Ev.acquireImage idx,
            Ev.updateUniform idx (deltaTimeArg env.elapsed)] ++
          [Ev.waitFence f]) ++ tr2 := by
      cases res2 with
      | error e2 => simp [drawNextFrame, hpre, hsubq]
      | ok u => simp [drawNextFrame, hpre, hsubq]
    have hstate : ((drawNextFrame o env).2.1).frame_state.images_in_flight
        = (recordImageFence o idx fence).frame_state.images_in_flight := by
      cases res2 with
      | error e2 => simp [drawNextFrame, hpre, hsubq]
      | ok u => simp [drawNextFrame, hpre, hsubq, advanceFrame]
    refine ⟨?_, fence, hfence, by rw [hstate]; exact hset⟩
    rw [hdraw2] at hsub
    have hj4 : 4 ≤ j := by
      by_contra hj
      push_neg at hj
      rw [List.getElem?_append_left (by simpa using hj)] at hsub
      interval_cases j <;> simp_all
    have hjtr2 : tr2[j - 4]? = some (Ev.submit idx fc) := by
      rw [List.getElem?_append_right (by simpa using hj4)] at hsub
      simpa using hsub
    refine ⟨3, by omega, ?_⟩
    rw [hdraw2]
    rw [List.getElem?_append_left (by simp)]
    simp

/-- Witness for C1: in a concrete one-image, one-slot engine whose image 0
is recorded as owned by fence 99, a successful tick produces the trace
`[waitFence 7, acquireImage 0, updateUniform 0 0, waitFence 99,
resetFence 7, submit 0 7, present 0]`: the wait on the recorded fence 99
(position 3) precedes the submit (position 5), and afterward image 0 is
owned by the slot's fence 7. -/
theorem draw_next_frame_waits_image_fence_witness :
    (∃ i, i < 5 ∧
      ((drawNextFrame
        ⟨1, [20], [30], [7], [40], [50], ⟨0, 0, [some 99]⟩⟩
        ⟨true, .ok 0, ⟨0, 0, by decide⟩, true, true, true, true,
          .ok false⟩).2.2)[i]? = some (Ev.waitFence 99)) ∧
    ∃ fcur, ([7] : List ℕ)[(0 : ℕ)]? = some fcur ∧
      ((drawNextFrame
        ⟨1, [20], [30], [7], [40], [50], ⟨0, 0, [some 99]⟩⟩
        ⟨true, .ok 0, ⟨0, 0, by decide⟩, true, true, true, true,
          .ok false⟩).2.1).frame_state.images_in_flight[(0 : ℕ)]?
        = some (some fcur) :=
  draw_next_frame_waits_image_fence
    ⟨1, [20], [30], [7], [40], [50], ⟨0, 0, [some 99]⟩⟩
    ⟨true, .ok 0, ⟨0, 0, by decide⟩, true, true, true, true, .ok false⟩
    0 99 5 7 rfl (by rfl)
    (by rfl)

/-- Claim C10: from the initial frame state (`current_frame = 0`, as built
by `FrameState::default`), any sequence of `draw_next_frame` calls —
successful or failed — keeps `current_frame` strictly below
`frames_in_flight`, provided `frames_in_flight ≥ 1`. -/
theorem current_frame_always_in_range (o : Objects) (envs : List TickEnv)
    (hfif : 1 ≤ o.frames_in_flight) (n : ℕ)
    (hinit : o.frame_state = FrameState.default n) :
    (envs.foldl stepAny o).frame_state.current_frame < o.frames_in_flight := by
  have key : ∀ (envs : List TickEnv) (o : Objects),
      o.frame_state.current_frame < o.frames_in_flight →
      1 ≤ o.frames_in_flight →
      (envs.foldl stepAny o).frame_state.current_frame
          < (envs.foldl stepAny o).frames_in_flight ∧
        (envs.foldl stepAny o).frames_in_flight = o.frames_in_flight := by
    intro envs
    induction envs with
    | nil => intro o h hf; exact ⟨h, rfl⟩
    | cons env envs ih =>
      intro o h hf
      have hstep : (stepAny o env).frames_in_flight = o.frames_in_flight ∧
          (stepAny o env).frame_state.current_frame < o.frames_in_flight := by
        unfold stepAny
        rcases hdraw : drawNextFrame o env with ⟨res, o', tr⟩
        cases res with
        | ok u =>
          cases u
          have := drawNextFrame_ok_state hdraw
          exact ⟨by simp [hdraw, this.1], by
            simp only [hdraw]
            rw [this.2]
            exact Nat.mod_lt _ (by omega)⟩
        | error e =>
          have := drawNextFrame_err_state hdraw
          exact ⟨by simp [hdraw, this.1], by
            simp only [hdraw]
            rw [this.2]
            exact h⟩
      have := ih (stepAny o env) (by rw [hstep.1]; exact hstep.2)
        (by rw [hstep.1]; exact hf)
      exact ⟨this.1, by rw [List.foldl_cons] at *; rw [this.2, hstep.1]⟩
  have h0 : o.frame_state.current_frame = 0 := by rw [hinit]; rfl
  have := key envs o (by rw [h0]; omega) hfif
  rw [← this.2]
  exact this.1

/-- Witness for C10: the concrete two-slot engine stays in range after a
successful tick followed by a failed one. -/
theorem current_frame_always_in_range_witness :
    (([⟨true, .ok 0, ⟨0, 0, by decide⟩, true, true, true, true, .ok false⟩,
        ⟨true, .error true, ⟨0, 0, by decide⟩, true, true, true, true,
          .ok false⟩] : List TickEnv).foldl stepAny
      ⟨2, [20, 21], [30, 31], [10, 11], [40, 41], [50, 51],
        FrameState.default 2⟩).frame_state.current_frame < 2 :=
  current_frame_always_in_range
    ⟨2, [20, 21], [30, 31], [10, 11], [40, 41], [50, 51],
      FrameState.default 2⟩
    [⟨true, .ok 0, ⟨0, 0, by decide⟩, true, true, true, true, .ok false⟩,
      ⟨true, .error true, ⟨0, 0, by decide⟩, true, true, true, true,
        .ok false⟩]
    (by decide) 2 rfl

lemma preChecks_update_dt (o : Objects) (env : TickEnv) :
    ∀ (idx : ℕ) (q : ℚ), Ev.updateUniform idx q ∈ (preChecks o env).2 →
      q = deltaTimeArg env.elapsed := by
  intro idx q
  unfold preChecks
  repeat' split
  all_goals (intro h; simp_all)

lemma submitBuffers_no_update (o : Objects) (env : TickEnv)
    (acquired_image_index : ℕ) :
    ∀ (idx : ℕ) (q : ℚ),
      Ev.updateUniform idx q ∉ (submitBuffersToQueue o env
        acquired_image_index).2 := by
  intro idx q
  unfold submitBuffersToQueue
  repeat' split
  all_goals simp

/-- Claim C7 (amended): `draw_next_frame` passes to `update_buffer` not the
full elapsed time but `elapsed.subsec_micros() / 1e6` — the sub-second part
of the elapsed wall-clock duration truncated to whole microseconds,
converted to seconds.  Every `updateUniform` event of any tick carries
exactly `deltaTimeArg env.elapsed`, and every successful tick contains the
`updateUniform` event for the acquired image with that value. -/
theorem draw_next_frame_delta_time (o : Objects) (env : TickEnv) :
    (∀ (idx : ℕ) (q : ℚ),
      Ev.updateUniform idx q ∈ (drawNextFrame o env).2.2 →
      q = deltaTimeArg env.elapsed) ∧
    ∀ o' tr (idx : ℕ), drawNextFrame o env = (.ok (), o', tr) →
      env.acquire = .ok idx →
      Ev.updateUniform idx (deltaTimeArg env.elapsed) ∈ tr := by
  constructor
  · intro idx q hmem
    rcases hpre : preChecks o env with ⟨pres, ptr⟩
    cases pres with
    | error e =>
      have htr : (drawNextFrame o env).2.2 = ptr := by
        simp [drawNextFrame, hpre]
      rw [htr] at hmem
      have := preChecks_update_dt o env idx q
      rw [hpre] at this
      exact this hmem
    | ok p =>
      obtain ⟨fence, idx'⟩ := p
      rcases hsubq : submitBuffersToQueue (recordImageFence o idx' fence) env
        idx' with ⟨res2, tr2⟩
      have htr : (drawNextFrame o env).2.2 = ptr ++ tr2 := by
        cases res2 with
        | error e2 => simp [drawNextFrame, hpre, hsubq]
        | ok u => simp [drawNextFrame, hpre, hsubq]
      rw [htr] at hmem
      rcases List.mem_append.mp hmem with hmem | hmem
      · have := preChecks_update_dt o env idx q
        rw [hpre] at this
        exact this hmem
      · have := submitBuffers_no_update (recordImageFence o idx' fence) env
          idx' idx q
        rw [hsubq] at this
        exact absurd hmem this
  · intro o' tr idx hdraw hacq
    rcases hpre : preChecks o env with ⟨pres, ptr⟩
    cases pres with
    | error e =>
      rw [drawNextFrame, hpre] at hdraw
      exact absurd hdraw (by simp)
    | ok p =>
      obtain ⟨fence, idx'⟩ := p
      obtain ⟨-, hacq', rec, -, htr⟩ := preChecks_ok_char hpre
      rw [hacq] at hacq'
      injection hacq' with hidx
      subst hidx
      rcases hsubq : submitBuffersToQueue (recordImageFence o idx fence) env
        idx with ⟨res2, tr2⟩
      cases res2 with
      | error e2 =>
        simp only [drawNextFrame, hpre, hsubq] at hdraw
        exact absurd hdraw (by simp)
      | ok u =>
        simp only [drawNextFrame, hpre, hsubq, Prod.mk.injEq] at hdraw
        obtain ⟨-, -, rfl⟩ := hdraw
        refine List.mem_append.mpr (Or.inl ?_)
        rw [htr]
        simp

/-- Counterexample to C7 as stated: with an elapsed duration of 1.5 s the
tick's uniform update is passed `deltaTimeArg = 0.5`, but the elapsed
wall-clock time in seconds is `1.5` — the whole-second part is discarded
(`subsec_micros`), so what is passed is not the elapsed time.  The first
conjunct shows the concrete tick performs its update with
`deltaTimeArg`. -/
theorem draw_next_frame_delta_time_counterexample :
    Ev.updateUniform 0 (deltaTimeArg ⟨1, 500000000, by decide⟩) ∈
      (drawNextFrame
        ⟨1, [20], [30], [7], [40], [50], FrameState.default 1⟩
        ⟨true, .ok 0, ⟨1, 500000000, by decide⟩, true, true, true, true,
          .ok false⟩).2.2 ∧
    deltaTimeArg ⟨1, 500000000, by decide⟩
      ≠ elapsedSeconds ⟨1, 500000000, by decide⟩ := by
  constructor
  · have h := (draw_next_frame_delta_time
      ⟨1, [20], [30], [7], [40], [50], FrameState.default 1⟩
      ⟨true, .ok 0, ⟨1, 500000000, by decide⟩, true, true, true, true,
        .ok false⟩).2
    exact h _ _ 0 rfl rfl
  · norm_num [deltaTimeArg, elapsedSeconds, Duration.subsec_micros]

/-- Witness for the amended C7: on a concrete successful tick with elapsed
duration 0, the update event for the acquired image 0 is in the trace and
its value equals `deltaTimeArg` of the tick's elapsed duration. -/
theorem draw_next_frame_delta_time_witness :
    deltaTimeArg ⟨0, 0, by decide⟩ = deltaTimeArg ⟨0, 0, by decide⟩ ∧
    Ev.updateUniform 0 (deltaTimeArg ⟨0, 0, by decide⟩) ∈
      (drawNextFrame
        ⟨1, [20], [30], [7], [40], [50], FrameState.default 1⟩
        ⟨true, .ok 0, ⟨0, 0, by decide⟩, true, true, true, true,
          .ok false⟩).2.2 := by
  have h := draw_next_frame_delta_time
    ⟨1, [20], [30], [7], [40], [50], FrameState.default 1⟩
    ⟨true, .ok 0, ⟨0, 0, by decide⟩, true, true, true, true, .ok false⟩
  have hmem : Ev.updateUniform 0 (deltaTimeArg ⟨0, 0, by decide⟩) ∈
      (drawNextFrame
        ⟨1, [20], [30], [7], [40], [50], FrameState.default 1⟩
        ⟨true, .ok 0, ⟨0, 0, by decide⟩, true, true, true, true,
          .ok false⟩).2.2 := h.2 _ _ 0 rfl rfl
  exact ⟨h.1 0 _ hmem, hmem⟩

/-! ## Uniform snapshot update (app.rs 79-125)

`UniformBuffer::update` multiplies the model matrix on the left by
`Matrix4::from_axis_angle(Vector3::new(0,0,1), Deg(90.0) * delta_time)`.
The f32 matrices are idealized over `ℝ` with exact trigonometry; for the
unit z axis, cgmath's `from_axis_angle` is the standard rotation matrix
about z. -/

/-- Rotation about the z axis by `θ` radians, as a homogeneous 4x4 matrix
(cgmath `Matrix4::from_axis_angle` with the unit z axis). -/
noncomputable def rotZ4 (θ : ℝ) : Matrix (Fin 4) (Fin 4) ℝ :=
  !![Real.cos θ, -Real.sin θ, 0, 0;
     Real.sin θ, Real.cos θ, 0, 0;
     0, 0, 1, 0;
     0, 0, 0, 1]

/-- cgmath `Deg(d)` converted to radians, as `from_axis_angle` does. -/
noncomputable def degToRad (d : ℝ) : ℝ := d * Real.pi / 180

/-- The uniform snapshot of app.rs 79-85: model/view/projection matrices. -/
structure UniformBuffer where
  model : Matrix (Fin 4) (Fin 4) ℝ
  view : Matrix (Fin 4) (Fin 4) ℝ
  proj : Matrix (Fin 4) (Fin 4) ℝ

/-- `UniformBuffer::update` (app.rs 113-116):
`self.model = from_axis_angle(z, Deg(90.0) * delta_time) * self.model`. -/
noncomputable def UniformBuffer.update (delta_time : ℝ) (u : UniformBuffer) :
    UniformBuffer :=
  { u with model := rotZ4 (degToRad (90 * delta_time)) * u.model }

lemma rotZ4_zero : rotZ4 0 = 1 := by
  unfold rotZ4
  ext i j
  fin_cases i <;> fin_cases j <;>
    simp [Matrix.one_apply, Matrix.vecHead, Matrix.vecTail]

/-- Claim C8: updating the uniform snapshot with `delta_time = 0`, any
number of times in succession, leaves it (in particular the model
matrix's rotation) unchanged: the zero-angle rotation is the identity
matrix. -/
theorem uniform_update_zero_delta_identity (u : UniformBuffer) (n : ℕ) :
    (UniformBuffer.update 0)^[n] u = u := by
  have h1 : UniformBuffer.update 0 u = u := by
    cases u with
    | mk m v p => simp [UniformBuffer.update, degToRad, rotZ4_zero]
  exact Function.iterate_fixed h1 n

end Kelsier
